import Mathlib

/-
Verification of the compositing / layout core of `src/app.py` (a social-media
post generator).  The Python code is shallowly embedded: images become a
structure of dimensions plus a pixel function, PIL library primitives that the
code calls (`Image.resize`, `ImageOps.expand`, `Image.crop`,
`Image.alpha_composite`, `ImageDraw.text`, `ImageFont.truetype`,
`draw.textbbox`) are modelled either directly (expand / crop / composite pixel
arithmetic) or as explicit function parameters standing for the library
routine (the resampling filter, the alpha blend, font loading, glyph masks and
font metrics), each constrained only by the library contract the code relies
on.  Python float arithmetic on aspect ratios is modelled as exact rational
arithmetic, so `int(tw / img_aspect)` with `img_aspect = w / h` becomes the
natural-number floor division `tw * h / w`.
-/

namespace PostGen

/-- An RGBA pixel: four 8-bit channels, as used by the `"RGBA"` PIL mode that
`src/app.py` converts every image to. -/
structure RGBA where
  r : Nat
  g : Nat
  b : Nat
  a : Nat
deriving DecidableEq

/-- An in-memory raster image: width, height and a pixel function.  Models a
PIL `Image.Image` in mode `"RGBA"`. -/
structure Img where
  width : Nat
  height : Nat
  pix : Nat → Nat → RGBA

/-- An image all of whose pixels have the same colour (used for concrete test
images and for the semi-transparent overlay built at line 165 of
`src/app.py`, `Image.new("RGBA", (w, total_area_height), (0,0,0,100))`). -/
def constImg (w h : Nat) (c : RGBA) : Img :=
  ⟨w, h, fun _ _ => c⟩

/-- PIL `ImageOps.expand(img, border, fill)` with `border = (l, t, r, b)`:
adds `l`/`r` columns and `t`/`b` rows of the fill colour around the image. -/
def expand (img : Img) (l t r b : Nat) (fill : RGBA) : Img :=
  { width := img.width + l + r
    height := img.height + t + b
    pix := fun x y =>
      if l ≤ x ∧ x < l + img.width ∧ t ≤ y ∧ y < t + img.height then
        img.pix (x - l) (y - t)
      else fill }

/-- PIL `img.crop((l, u, r, lo))`: the rectangle with corners `(l, u)` and
`(r, lo)`, of size `(r - l) × (lo - u)`. -/
def crop (img : Img) (l u r lo : Nat) : Img :=
  { width := r - l
    height := lo - u
    pix := fun x y => img.pix (x + l) (y + u) }

/-- The contract PIL guarantees for `Image.resize(size, filter)`: the result
has exactly the requested size.  The resampling filter itself (LANCZOS in the
source) is kept as an explicit function parameter of the embedding. -/
def SizeCorrect (resample : Img → Nat → Nat → Img) : Prop :=
  ∀ i w h, (resample i w h).width = w ∧ (resample i w h).height = h

/-- A concrete resampling function (nearest neighbour) used to instantiate the
`resample` parameter in witnesses; it satisfies `SizeCorrect` like any real
PIL filter. -/
def nearestResize (i : Img) (w h : Nat) : Img :=
  { width := w
    height := h
    pix := fun x y => i.pix (x * i.width / w) (y * i.height / h) }

theorem nearest_size_correct : SizeCorrect nearestResize :=
  fun _ _ _ => ⟨rfl, rfl⟩

/-- The transparent-white fill `(255, 255, 255, 0)` used for padding in
`fit_image_to_size` (lines 99 and 111 of `src/app.py`). -/
def clearWhite : RGBA := ⟨255, 255, 255, 0⟩

/-- The preset size table `SOCIAL_SIZES` of `src/app.py` lines 12-18:
display name together with `(width, height)`. -/
def SOCIAL_SIZES : List (String × Nat × Nat) :=
  [("Post Size (1080x1080)", 1080, 1080),
   ("Landscape Size (1200x628)", 1200, 628),
   ("Story Size (1080x1920)", 1080, 1920),
   ("Portrait Size (1080x1350)", 1080, 1350),
   ("Pin (1000x1500)", 1000, 1500)]

/-- `fit_image_to_size` of `src/app.py` lines 78-117.  `img_aspect >
target_aspect` is the exact-rational form `w * th > h * tw`; `int(tw /
img_aspect)` is `tw * h / w` and `int(th * img_aspect)` is `th * w / h`
(floor, since the quantities are nonnegative); the pad borders and crop boxes
are transliterated verbatim. -/
def fit_image_to_size (resample : Img → Nat → Nat → Img) (img : Img)
    (tw th : Nat) : Img :=
  let w := img.width
  let h := img.height
  if w * th > h * tw then
    let new_height := tw * h / w
    let img1 := resample img tw new_height
    if new_height < th then
      expand img1 0 ((th - new_height) / 2) 0
        ((th - new_height) - (th - new_height) / 2) clearWhite
    else if new_height > th then
      crop img1 0 ((new_height - th) / 2) tw ((new_height - th) / 2 + th)
    else img1
  else
    let new_width := th * w / h
    let img1 := resample img new_width th
    if new_width < tw then
      expand img1 ((tw - new_width) / 2) 0
        ((tw - new_width) - (tw - new_width) / 2) 0 clearWhite
    else if new_width > tw then
      crop img1 ((new_width - tw) / 2) 0 ((new_width - tw) / 2 + tw) th
    else img1

theorem pad_total (n t : Nat) (h : n < t) :
    n + (t - n) / 2 + ((t - n) - (t - n) / 2) = t := by omega

theorem crop_total (n t : Nat) : (n / 2 + t) - n / 2 = t := by omega

theorem pad_lower (d : Nat) : d / 2 ≤ d - d / 2 := by omega

theorem pad_diff (d : Nat) : (d - d / 2) - d / 2 ≤ 1 := by omega

/-- Every branch of `fit_image_to_size` produces exactly the target
dimensions, for any resampling filter that honours the PIL size contract. -/
theorem fit_dims (resample : Img → Nat → Nat → Img)
    (hres : SizeCorrect resample) (img : Img) (tw th : Nat) :
    (fit_image_to_size resample img tw th).width = tw ∧
      (fit_image_to_size resample img tw th).height = th := by
  have hW : ∀ i a b, (resample i a b).width = a := fun i a b => (hres i a b).1
  have hH : ∀ i a b, (resample i a b).height = b := fun i a b => (hres i a b).2
  simp only [fit_image_to_size]
  split_ifs with h1 h2 h3 h4 h5
  · refine ⟨?_, ?_⟩
    · simp [expand, hW]
    · simp only [expand, hH]
      exact pad_total _ _ h2
  · refine ⟨?_, ?_⟩
    · simp [crop]
    · simp only [crop]
      exact crop_total _ _
  · refine ⟨?_, ?_⟩
    · simp [hW]
    · rw [hH]
      exact Nat.le_antisymm (Nat.not_lt.mp h3) (Nat.not_lt.mp h2)
  · refine ⟨?_, ?_⟩
    · simp only [expand, hW]
      exact pad_total _ _ h4
    · simp [expand, hH]
  · refine ⟨?_, ?_⟩
    · simp only [crop]
      exact crop_total _ _
    · simp [crop]
  · refine ⟨?_, ?_⟩
    · rw [hW]
      exact Nat.le_antisymm (Nat.not_lt.mp h5) (Nat.not_lt.mp h4)
    · simp [hH]

/-- Claim C1: for every source image with positive dimensions and every target
geometry drawn from the preset set `SOCIAL_SIZES`, `fit_image_to_size` returns
an image whose width and height equal the target exactly. -/
theorem fit_exact_size (resample : Img → Nat → Nat → Img)
    (hres : SizeCorrect resample) (img : Img)
    (hw : 0 < img.width) (hh : 0 < img.height) (tw th : Nat)
    (hsz : ∃ nm, (nm, tw, th) ∈ SOCIAL_SIZES) :
    (fit_image_to_size resample img tw th).width = tw ∧
      (fit_image_to_size resample img tw th).height = th :=
  fit_dims resample hres img tw th

/-- A 16 × 9 all-red source image. -/
def red16x9 : Img := constImg 16 9 ⟨255, 0, 0, 255⟩

/-- A 9 × 16 all-red source image. -/
def red9x16 : Img := constImg 9 16 ⟨255, 0, 0, 255⟩

/-- Witness for C1 at a concrete input: a 16 × 9 source fitted to the square
preset comes out exactly 1080 × 1080. -/
theorem fit_exact_size_witness :
    (fit_image_to_size nearestResize red16x9 1080 1080).width = 1080 ∧
      (fit_image_to_size nearestResize red16x9 1080 1080).height = 1080 :=
  fit_exact_size nearestResize nearest_size_correct red16x9 (by decide)
    (by decide) 1080 1080 ⟨"Post Size (1080x1080)", by simp [SOCIAL_SIZES]⟩

/-- Claim C5: when the source aspect ratio equals the target aspect ratio
(`w * th = h * tw` in exact arithmetic), `fit_image_to_size` is the pure
uniform resize: no padding and no cropping touches any pixel. -/
theorem fit_noop (resample : Img → Nat → Nat → Img) (img : Img)
    (hw : 0 < img.width) (hh : 0 < img.height) (tw th : Nat)
    (heq : img.width * th = img.height * tw) :
    fit_image_to_size resample img tw th = resample img tw th := by
  have hc : ¬ img.width * th > img.height * tw := by
    rw [heq]
    exact lt_irrefl _
  have hnw : th * img.width / img.height = tw := by
    have h1 : th * img.width = tw * img.height := by
      rw [Nat.mul_comm, heq, Nat.mul_comm]
    rw [h1, Nat.mul_div_cancel _ hh]
  simp only [fit_image_to_size]
  rw [if_neg hc, hnw, if_neg (lt_irrefl tw), if_neg (lt_irrefl tw)]

/-- A 2160 × 2160 all-red source image (same aspect as the square preset). -/
def redSq : Img := constImg 2160 2160 ⟨255, 0, 0, 255⟩

/-- Witness for C5 at a concrete input: a 2160 × 2160 source fitted to
1080 × 1080 is exactly the plain resize. -/
theorem fit_noop_witness :
    fit_image_to_size nearestResize redSq 1080 1080 =
      nearestResize redSq 1080 1080 :=
  fit_noop nearestResize redSq (by decide) (by decide) 1080 1080 rfl

/-- Claim C4 (amended): for a strictly wider source the code scales to width
`tw` and height `floor(tw * h / w)` (Python `int` truncation, not `round`),
which is always `< th`, and pads vertically with transparent pixels split as
`top = floor(deficit / 2)`, `bottom = deficit - top`, so the two pads differ
by at most one with any odd pixel on the trailing side; the mirrored rule
holds on the horizontal axis for a strictly taller source. -/
theorem fit_pad_split (resample : Img → Nat → Nat → Img)
    (hres : SizeCorrect resample) (img : Img)
    (hw : 0 < img.width) (hh : 0 < img.height) (tw th : Nat) :
    (img.width * th > img.height * tw →
      tw * img.height / img.width < th ∧
      (th - tw * img.height / img.width) / 2 ≤
        (th - tw * img.height / img.width) -
          (th - tw * img.height / img.width) / 2 ∧
      ((th - tw * img.height / img.width) -
          (th - tw * img.height / img.width) / 2) -
        (th - tw * img.height / img.width) / 2 ≤ 1 ∧
      fit_image_to_size resample img tw th =
        expand (resample img tw (tw * img.height / img.width)) 0
          ((th - tw * img.height / img.width) / 2) 0
          ((th - tw * img.height / img.width) -
            (th - tw * img.height / img.width) / 2) clearWhite) ∧
    (img.width * th < img.height * tw →
      th * img.width / img.height < tw ∧
      (tw - th * img.width / img.height) / 2 ≤
        (tw - th * img.width / img.height) -
          (tw - th * img.width / img.height) / 2 ∧
      ((tw - th * img.width / img.height) -
          (tw - th * img.width / img.height) / 2) -
        (tw - th * img.width / img.height) / 2 ≤ 1 ∧
      fit_image_to_size resample img tw th =
        expand (resample img (th * img.width / img.height) th)
          ((tw - th * img.width / img.height) / 2) 0
          ((tw - th * img.width / img.height) -
            (tw - th * img.width / img.height) / 2) 0 clearWhite) := by
  constructor
  · intro hc
    have hkey : tw * img.height < th * img.width := by
      rw [Nat.mul_comm tw, Nat.mul_comm th]
      exact hc
    have hnh : tw * img.height / img.width < th :=
      (Nat.div_lt_iff_lt_mul hw).mpr hkey
    refine ⟨hnh, pad_lower _, pad_diff _, ?_⟩
    simp only [fit_image_to_size]
    rw [if_pos hc, if_pos hnh]
  · intro hc
    have hkey : th * img.width < tw * img.height := by
      rw [Nat.mul_comm th, Nat.mul_comm tw]
      exact hc
    have hnw : th * img.width / img.height < tw :=
      (Nat.div_lt_iff_lt_mul hh).mpr hkey
    have hcc : ¬ img.width * th > img.height * tw := lt_asymm hc
    refine ⟨hnw, pad_lower _, pad_diff _, ?_⟩
    simp only [fit_image_to_size]
    rw [if_neg hcc, if_pos hnw]

/-- Witness for C4 at concrete inputs, in both branches: the 16 × 9 source is
scaled to 1080 × 607 and padded 236 above / 237 below; the 9 × 16 source is
scaled to 607 × 1080 and padded 236 left / 237 right. -/
theorem fit_pad_split_witness :
    fit_image_to_size nearestResize red16x9 1080 1080 =
      expand (nearestResize red16x9 1080 607) 0 236 0 237 clearWhite ∧
    fit_image_to_size nearestResize red9x16 1080 1080 =
      expand (nearestResize red9x16 607 1080) 236 0 237 0 clearWhite := by
  constructor
  · exact ((fit_pad_split nearestResize nearest_size_correct red16x9
      (by decide) (by decide) 1080 1080).1 (by decide)).2.2.2
  · exact ((fit_pad_split nearestResize nearest_size_correct red9x16
      (by decide) (by decide) 1080 1080).2 (by decide)).2.2.2

/-- Counterexample to C4 as stated: the claim predicts a scaled content height
of `round(1080 / (16/9)) = round(607.5) = 608`, so rows 236 through 843 of the
output would show source content; in the code the content height is
`int(1080 / (16/9)) = 607`, so row 843 is transparent padding instead of the
(all-red) scaled source pixel the claim demands. -/
theorem fit_round_counterexample :
    (fit_image_to_size nearestResize red16x9 1080 1080).pix 0 843 ≠
      (nearestResize red16x9 1080 608).pix 0 607 := by decide

/-- A font value as produced by `ImageFont` in `src/app.py`: either the result
of `ImageFont.truetype(path, size)` or the embedded
`ImageFont.load_default()`. -/
inductive Font where
  | default
  | truetype (path : String) (size : Nat)
deriving DecidableEq

/-- `BrandConfig` of `src/app.py` lines 20-26 (the logo path is optional, as
in the UI code at lines 224-230 which passes `None` when no logo is
uploaded). -/
structure BrandConfig where
  brand_logo_path : Option String
  primary_colors : List String
  secondary_colors : List String
  primary_font_path : String
  secondary_font_path : String

/-- Lines 140-148 of `src/app.py`: `ImageFont.truetype(path, size)` inside
`try/except`, falling back to `ImageFont.load_default()` when loading fails.
Whether a path loads is an environment fact, passed in as the `fontOk`
oracle. -/
def resolve_font (fontOk : String → Bool) (path : String) (size : Nat) :
    Font :=
  if fontOk path then Font.truetype path size else Font.default

/-- The hard-coded text colour of `src/app.py` line 151:
`text_color = (255,255,255,255)` (opaque white). -/
def text_color : RGBA := ⟨255, 255, 255, 255⟩

/-- PIL `base.alpha_composite(overlay, (ox, oy))`: inside the overlay's
rectangle the pixels are blended with the alpha-over operator (kept as the
explicit `blend` parameter), outside it the base is unchanged.  The canvas
keeps its own size. -/
def alphaCompositeAt (blend : RGBA → RGBA → RGBA) (base overlay : Img)
    (ox oy : Int) : Img :=
  { width := base.width
    height := base.height
    pix := fun x y =>
      if ox ≤ (x : Int) ∧ (x : Int) < ox + overlay.width ∧
          oy ≤ (y : Int) ∧ (y : Int) < oy + overlay.height then
        blend (base.pix x y)
          (overlay.pix ((x : Int) - ox).toNat ((y : Int) - oy).toNat)
      else base.pix x y }

/-- PIL `draw.text((tx, ty), txt, font, fill)`: pixels covered by a glyph of
`txt` (the glyph raster is the environment parameter `mask`, in coordinates
relative to the text anchor) take the fill colour — the fills in the source
are fully opaque, so coverage paints the fill directly. -/
def drawTextAt (mask : String → Font → Int → Int → Bool) (img : Img)
    (txt : String) (f : Font) (tx ty : Int) (fill : RGBA) : Img :=
  { width := img.width
    height := img.height
    pix := fun x y =>
      if mask txt f ((x : Int) - tx) ((y : Int) - ty) then fill
      else img.pix x y }

/-- Lines 173-174 of `src/app.py`: the anchor of the primary (top) text,
`tx = (w - tw) // 2` and
`ty = h - total_area_height - padding + (total_area_height // 2 - th) - 20`
with `total_area_height = 250`, `padding = 50`, and `(tw, th)` the measured
text box. -/
def top_text_xy (w h tbw tbh : Int) : Int × Int :=
  (Int.fdiv (w - tbw) 2, h - 250 - 50 + (250 / 2 - tbh) - 20)

/-- Lines 181-182 of `src/app.py`: the anchor of the secondary (bottom) text,
`bx = (w - btw) // 2` and `by = ty + th + 20`. -/
def bottom_text_xy (w ty tbh bbw : Int) : Int × Int :=
  (Int.fdiv (w - bbw) 2, ty + tbh + 20)

/-- `add_text_overlays` of `src/app.py` lines 134-183.  The PIL environment
enters as parameters: `blend` (the alpha-over pixel operator), `bbox` (the
font-metric function behind `draw.textbbox`), `mask` (glyph coverage behind
`draw.text`) and `fontOk` (whether `ImageFont.truetype` succeeds on a path).
The sequence of canvas operations is transliterated in order: composite the
semi-transparent box, draw the top text, then draw the bottom text when the
occasion is non-empty. -/
def add_text_overlays_model (blend : RGBA → RGBA → RGBA)
    (bbox : String → Font → Int × Int × Int × Int)
    (mask : String → Font → Int → Int → Bool) (fontOk : String → Bool)
    (base : Img) (cfg : BrandConfig) (description : String)
    (occasion : Option String) : Img :=
  let primary_font := resolve_font fontOk cfg.primary_font_path 60
  let secondary_font := resolve_font fontOk cfg.secondary_font_path 40
  let w := base.width
  let h := base.height
  let top_text := description
  let bottom_text := occasion.getD ""
  let overlay := constImg w 250 ⟨0, 0, 0, 100⟩
  let base1 := alphaCompositeAt blend base overlay 0 ((h : Int) - 250 - 50)
  let top_box := bbox top_text primary_font
  let tbw := top_box.2.2.1 - top_box.1
  let tbh := top_box.2.2.2 - top_box.2.1
  let txy := top_text_xy (w : Int) (h : Int) tbw tbh
  let base2 := drawTextAt mask base1 top_text primary_font txy.1 txy.2
    text_color
  if bottom_text = "" then base2
  else
    let bottom_box := bbox bottom_text secondary_font
    let bbw := bottom_box.2.2.1 - bottom_box.1
    let bxy := bottom_text_xy (w : Int) txy.2 tbh bbw
    drawTextAt mask base2 bottom_text secondary_font bxy.1 bxy.2 text_color

/-- `add_brand_logo` of `src/app.py` lines 119-132: the logo is scaled to
height `int(h * 0.15)` (modelled exactly as `h * 15 / 100`; the two agree on
every preset height) with width `int(logo_height * aspect)` preserving its
aspect ratio, then alpha-composited at the fixed inset `(30, 30)`. -/
def add_brand_logo_model (blend : RGBA → RGBA → RGBA)
    (resample : Img → Nat → Nat → Img) (base logo : Img) : Img :=
  let logo_height := base.height * 15 / 100
  let logo_width := logo_height * logo.width / logo.height
  alphaCompositeAt blend base (resample logo logo_width logo_height) 30 30

/-- Lines 186-196 of `src/app.py`: when `no_user_image` the AI image (the
external generation collaborators are the oracles `promptOracle` for
`generate_prompt_with_openai` and `imgOracle` for `generate_ai_image`) is
passed through `fit_image_to_size`; otherwise the decoded user image is
resized directly to the target size with `Image.resize`. -/
def prepare_background (resample : Img → Nat → Nat → Img)
    (imgOracle : String → Img) (promptOracle : String → Option String → String)
    (userImg : Img) (noUserImage : Bool) (description : String)
    (occasion : Option String) (tw th : Nat) : Img :=
  if noUserImage then
    fit_image_to_size resample (imgOracle (promptOracle description occasion))
      tw th
  else
    resample userImg tw th

/-- `generate_post_image` of `src/app.py` lines 185-205: prepare the
background, composite the brand logo when a logo path is configured
(`logoOracle` stands for `load_image` on that path), then apply the text
overlays. -/
def generate_post_image_model (blend : RGBA → RGBA → RGBA)
    (resample : Img → Nat → Nat → Img)
    (bbox : String → Font → Int × Int × Int × Int)
    (mask : String → Font → Int → Int → Bool) (fontOk : String → Bool)
    (imgOracle : String → Img) (promptOracle : String → Option String → String)
    (logoOracle : String → Img) (userImg : Img) (cfg : BrandConfig)
    (description : String) (occasion : Option String) (tw th : Nat)
    (noUserImage : Bool) : Img :=
  let base := prepare_background resample imgOracle promptOracle userImg
    noUserImage description occasion tw th
  let base1 := match cfg.brand_logo_path with
    | some p => add_brand_logo_model blend resample base (logoOracle p)
    | none => base
  add_text_overlays_model blend bbox mask fontOk base1 cfg description occasion

/-- The kinds of layer composited onto the canvas by `generate_post_image`. -/
inductive LayerKind where
  | background
  | logo
  | band
  | primaryText
  | secondaryText
deriving DecidableEq

/-- Index of the first occurrence of a layer kind in a composite trace. -/
def opIndex : List LayerKind → LayerKind → Nat
  | [], _ => 0
  | k :: ks, t => if k = t then 0 else opIndex ks t + 1

/-- The order of canvas operations performed by `add_text_overlays`
(`src/app.py` lines 134-183): the semi-transparent band is composited first
(lines 165-166), the primary text is drawn next (line 175), and the secondary
text is drawn last, only when the occasion is non-empty (lines 177-183). -/
def add_text_overlays_ops (occasion : Option String) : List LayerKind :=
  [LayerKind.band, LayerKind.primaryText] ++
    (if occasion.getD "" = "" then [] else [LayerKind.secondaryText])

/-- The order of canvas operations performed by `generate_post_image`
(`src/app.py` lines 185-205): the background is laid down first (lines
186-196), the logo is composited when a logo path is configured (lines
198-200), and `add_text_overlays` runs last (line 203). -/
def generate_post_image_ops (cfg : BrandConfig) (occasion : Option String) :
    List LayerKind :=
  [LayerKind.background] ++
    (match cfg.brand_logo_path with
      | some _ => [LayerKind.logo]
      | none => []) ++
    add_text_overlays_ops occasion

/-- Concrete blend used to instantiate the alpha-over parameter in witnesses:
overlay replaces base (alpha-over of an opaque overlay). -/
def blendTop : RGBA → RGBA → RGBA := fun _ t => t

/-- Concrete font-metric oracle for witnesses: every string measures to the
empty box. -/
def bboxZero : String → Font → Int × Int × Int × Int := fun _ _ => (0, 0, 0, 0)

/-- Concrete glyph mask for witnesses: no pixel is ever covered. -/
def maskNone : String → Font → Int → Int → Bool := fun _ _ _ _ => false

/-- Concrete glyph mask for counterexamples: every pixel is covered, so a text
draw floods the canvas with its fill colour. -/
def maskAll : String → Font → Int → Int → Bool := fun _ _ _ _ => true

/-- Concrete font oracle for witnesses: every font path fails to load. -/
def fontOkNone : String → Bool := fun _ => false

/-- A 1080 × 1080 all-black canvas. -/
def blackImg : Img := constImg 1080 1080 ⟨0, 0, 0, 255⟩

/-- A 2160 × 1080 all-red source image (twice as wide as the square preset). -/
def redWide : Img := constImg 2160 1080 ⟨255, 0, 0, 255⟩

/-- A brand configuration with no logo, unparsable primary colour strings and
font paths that will fail to load under `fontOkNone`. -/
def cfgZZZ : BrandConfig :=
  ⟨none, ["ZZZ"], ["#000000", "#CCCCCC"], "arial.ttf", "arial.ttf"⟩

/-- A brand configuration with a logo path configured. -/
def cfgLogo : BrandConfig :=
  ⟨some "temp_brand_logo.png", ["#FF0000", "#FFFFFF"],
    ["#000000", "#CCCCCC"], "arial.ttf", "arial.ttf"⟩

/-- Counterexample to C2 as stated: in the code the logo is composited at
index 1 of the render trace and the decorative band at index 2, so the band is
drawn over the logo, not beneath it as the claimed order (background → band →
plate → logo-shadow → logo → shadows → text) demands; no plate or shadow
layers exist at all. -/
theorem layer_order_counterexample :
    opIndex (generate_post_image_ops cfgLogo (some "Delivering"))
        LayerKind.logo <
      opIndex (generate_post_image_ops cfgLogo (some "Delivering"))
        LayerKind.band := by decide

/-- Claim C2 (amended): the composite order is background, then logo (when a
logo is configured), then the semi-transparent band, then the primary text,
then the secondary text (when the occasion is non-empty); there are no
text-plate or shadow layers. -/
theorem layer_order (cfg : BrandConfig) (occasion : Option String) :
    generate_post_image_ops cfg occasion =
      LayerKind.background ::
        ((match cfg.brand_logo_path with
          | some _ => [LayerKind.logo]
          | none => []) ++
          ([LayerKind.band, LayerKind.primaryText] ++
            (if occasion.getD "" = "" then []
             else [LayerKind.secondaryText]))) := by
  simp [generate_post_image_ops, add_text_overlays_ops]

/-- Counterexample to C3 as stated: a 2160 × 1080 user upload sent to the
1080 × 1080 preset is plainly stretched (pixel (0,0) keeps the red source
colour), while the aspect-preserving fit would have put transparent padding
there; the user-upload path does not apply the fit. -/
theorem user_upload_not_fitted :
    (prepare_background nearestResize (fun _ => blackImg) (fun _ _ => "p")
        redWide false "d" none 1080 1080).pix 0 0 ≠
      (fit_image_to_size nearestResize redWide 1080 1080).pix 0 0 := by decide

/-- Claim C3 (amended): only the AI-generated background goes through the
aspect-ratio-preserving `fit_image_to_size`; a user upload is resized directly
to the target size — still exactly the target dimensions, but a plain
(possibly non-uniform) stretch. -/
theorem background_paths (resample : Img → Nat → Nat → Img)
    (hres : SizeCorrect resample) (imgOracle : String → Img)
    (promptOracle : String → Option String → String) (userImg : Img)
    (description : String) (occasion : Option String) (tw th : Nat) :
    prepare_background resample imgOracle promptOracle userImg false
        description occasion tw th = resample userImg tw th ∧
    (prepare_background resample imgOracle promptOracle userImg false
        description occasion tw th).width = tw ∧
    (prepare_background resample imgOracle promptOracle userImg false
        description occasion tw th).height = th ∧
    prepare_background resample imgOracle promptOracle userImg true
        description occasion tw th =
      fit_image_to_size resample (imgOracle (promptOracle description
        occasion)) tw th :=
  ⟨rfl, (hres userImg tw th).1, (hres userImg tw th).2, rfl⟩

/-- Witness for C3 (amended) at a concrete input. -/
theorem background_paths_witness :
    prepare_background nearestResize (fun _ => blackImg) (fun _ _ => "p")
        redWide false "d" none 1080 1080 = nearestResize redWide 1080 1080 ∧
    (prepare_background nearestResize (fun _ => blackImg) (fun _ _ => "p")
        redWide false "d" none 1080 1080).width = 1080 ∧
    (prepare_background nearestResize (fun _ => blackImg) (fun _ _ => "p")
        redWide false "d" none 1080 1080).height = 1080 ∧
    prepare_background nearestResize (fun _ => blackImg) (fun _ _ => "p")
        redWide true "d" none 1080 1080 =
      fit_image_to_size nearestResize blackImg 1080 1080 :=
  background_paths nearestResize nearest_size_correct (fun _ => blackImg)
    (fun _ _ => "p") redWide "d" none 1080 1080

/-- Counterexample to C6 as stated: with a canvas of 1080 × 1080, a measured
primary height of 40 and no secondary text, the claim places the primary text
at `plate.y + (plate.height - ph) / 2 - 20 = 780 + 105 - 20 = 865`; the code
computes `780 + (250 / 2 - 40) - 20 = 845` (it subtracts the full text height
from the half plate height, not half the text height). -/
theorem text_y_counterexample :
    (top_text_xy 1080 1080 500 40).2 ≠ (1080 - 300) + (250 - 40) / 2 - 20 := by
  decide

/-- Claim C6 (amended): the primary text's vertical origin is
`plate.y + (plate.height / 2 - ph) - 20` where the plate is the band rectangle
(`plate.y = h - 300`, `plate.height = 250`), with no dependence on the
secondary text; the secondary text, when present, is drawn at
`primary_y + ph + 20`. -/
theorem text_vertical_placement (w h tbw tbh bbw : Int) :
    (top_text_xy w h tbw tbh).2 = (h - 300) + (125 - tbh) - 20 ∧
    (bottom_text_xy w ((top_text_xy w h tbw tbh).2) tbh bbw).2 =
      (top_text_xy w h tbw tbh).2 + tbh + 20 := by
  constructor
  · show h - 250 - 50 + (250 / 2 - tbh) - 20 = (h - 300) + (125 - tbh) - 20
    norm_num
    ring
  · rfl

/-- Counterexample to C7 as stated: render with the unparsable primary colour
string "ZZZ" and a glyph mask covering the whole canvas — the text pixels of
the output are the hard-coded white `(255,255,255,255)`, not the claimed
default `(255,0,0)`; no colour string is ever parsed. -/
theorem unparsable_color_not_defaulted :
    (add_text_overlays_model blendTop bboxZero maskAll fontOkNone blackImg
        cfgZZZ "Craving" none).pix 0 0 = ⟨255, 255, 255, 255⟩ ∧
      (⟨255, 255, 255, 255⟩ : RGBA) ≠ ⟨255, 0, 0, 255⟩ := by
  constructor
  · rfl
  · decide

/-- Claim C7 (amended): the brand colour strings are never parsed nor used by
the renderer — the output is invariant under arbitrary changes to both colour
lists — and every text draw uses the fixed colour `text_color`, opaque white;
consequently an unparsable colour string can never abort the render. -/
theorem colors_unused (blend : RGBA → RGBA → RGBA)
    (bbox : String → Font → Int × Int × Int × Int)
    (mask : String → Font → Int → Int → Bool) (fontOk : String → Bool)
    (base : Img) (lp : Option String) (pc sc pc2 sc2 : List String)
    (pf sf : String) (description : String) (occasion : Option String) :
    add_text_overlays_model blend bbox mask fontOk base
        ⟨lp, pc, sc, pf, sf⟩ description occasion =
      add_text_overlays_model blend bbox mask fontOk base
        ⟨lp, pc2, sc2, pf, sf⟩ description occasion ∧
    text_color = ⟨255, 255, 255, 255⟩ :=
  ⟨rfl, rfl⟩

/-- Dimensions are preserved by `add_text_overlays_model`: the canvas is only
composited onto, never resized. -/
theorem add_text_overlays_model_dims (blend : RGBA → RGBA → RGBA)
    (bbox : String → Font → Int × Int × Int × Int)
    (mask : String → Font → Int → Int → Bool) (fontOk : String → Bool)
    (base : Img) (cfg : BrandConfig) (description : String)
    (occasion : Option String) :
    (add_text_overlays_model blend bbox mask fontOk base cfg description
        occasion).width = base.width ∧
      (add_text_overlays_model blend bbox mask fontOk base cfg description
        occasion).height = base.height := by
  unfold add_text_overlays_model
  by_cases hb : occasion.getD "" = "" <;>
    simp [hb, drawTextAt, alphaCompositeAt]

/-- Claim C8: whenever a requested font path cannot be loaded the embedded
default font is silently substituted for that role — each role falls back
independently, so both fall back when both fail — and the render always
completes, producing a full-size image. -/
theorem font_fallback (blend : RGBA → RGBA → RGBA)
    (bbox : String → Font → Int × Int × Int × Int)
    (mask : String → Font → Int → Int → Bool) (fontOk : String → Bool)
    (base : Img) (cfg : BrandConfig) (description : String)
    (occasion : Option String) :
    (fontOk cfg.primary_font_path = false →
      resolve_font fontOk cfg.primary_font_path 60 = Font.default) ∧
    (fontOk cfg.secondary_font_path = false →
      resolve_font fontOk cfg.secondary_font_path 40 = Font.default) ∧
    (add_text_overlays_model blend bbox mask fontOk base cfg description
        occasion).width = base.width ∧
    (add_text_overlays_model blend bbox mask fontOk base cfg description
        occasion).height = base.height := by
  refine ⟨?_, ?_,
    (add_text_overlays_model_dims blend bbox mask fontOk base cfg description
      occasion).1,
    (add_text_overlays_model_dims blend bbox mask fontOk base cfg description
      occasion).2⟩
  · intro hp
    simp [resolve_font, hp]
  · intro hs
    simp [resolve_font, hs]

/-- A brand configuration whose primary font path is broken while the
secondary one is loadable (under `fontOkArial`). -/
def cfgMixedFonts : BrandConfig :=
  ⟨none, ["#FF0000"], ["#000000"], "missing.ttf", "arial.ttf"⟩

/-- Concrete font oracle under which exactly the path `"arial.ttf"` loads. -/
def fontOkArial : String → Bool := fun p => p == "arial.ttf"

/-- Witness for C8 at concrete inputs, covering both failure patterns: with
`fontOkNone` both fonts fail and both roles fall back to the default (and the
render still yields a 1080 × 1080 image); with `fontOkArial` and
`cfgMixedFonts` only the primary font fails, and only that role falls back
while the secondary role loads. -/
theorem font_fallback_witness :
    (resolve_font fontOkNone cfgZZZ.primary_font_path 60 = Font.default ∧
     resolve_font fontOkNone cfgZZZ.secondary_font_path 40 = Font.default ∧
     (add_text_overlays_model blendTop bboxZero maskNone fontOkNone blackImg
        cfgZZZ "Hi" (some "there")).width = blackImg.width ∧
     (add_text_overlays_model blendTop bboxZero maskNone fontOkNone blackImg
        cfgZZZ "Hi" (some "there")).height = blackImg.height) ∧
    (resolve_font fontOkArial cfgMixedFonts.primary_font_path 60 =
        Font.default ∧
     resolve_font fontOkArial cfgMixedFonts.secondary_font_path 40 =
        Font.truetype "arial.ttf" 40) := by
  obtain ⟨h1, h2, h3, h4⟩ := font_fallback blendTop bboxZero maskNone
    fontOkNone blackImg cfgZZZ "Hi" (some "there")
  obtain ⟨h5, _, _, _⟩ := font_fallback blendTop bboxZero maskNone fontOkArial
    blackImg cfgMixedFonts "Hi" (some "there")
  exact ⟨⟨h1 rfl, h2 rfl, h3, h4⟩, ⟨h5 (by decide), by decide⟩⟩

/-- Claim C9: the render is a pure function of its inputs — two renders whose
external collaborators deliver the same background bytes (trivially so on the
user-upload path, which never consults them) produce identical output
images, whatever the prompt and image oracles do otherwise. -/
theorem render_deterministic (blend : RGBA → RGBA → RGBA)
    (resample : Img → Nat → Nat → Img)
    (bbox : String → Font → Int × Int × Int × Int)
    (mask : String → Font → Int → Int → Bool) (fontOk : String → Bool)
    (logoOracle : String → Img)
    (promptOracleA promptOracleB : String → Option String → String)
    (imgOracleA imgOracleB : String → Img) (userImg : Img)
    (cfg : BrandConfig) (description : String) (occasion : Option String)
    (tw th : Nat) (noUserImage : Bool)
    (hb : noUserImage = true →
      imgOracleA (promptOracleA description occasion) =
        imgOracleB (promptOracleB description occasion)) :
    generate_post_image_model blend resample bbox mask fontOk imgOracleA
        promptOracleA logoOracle userImg cfg description occasion tw th
        noUserImage =
      generate_post_image_model blend resample bbox mask fontOk imgOracleB
        promptOracleB logoOracle userImg cfg description occasion tw th
        noUserImage := by
  cases noUserImage
  · rfl
  · simp only [generate_post_image_model, prepare_background, if_pos]
    rw [hb rfl]

/-- Witness for C9 at a concrete input: on the user-upload path two renders
with entirely different prompt and image oracles agree. -/
theorem render_deterministic_witness :
    generate_post_image_model blendTop nearestResize bboxZero maskNone
        fontOkNone (fun _ => blackImg) (fun _ _ => "p1") (fun _ => blackImg)
        redWide cfgZZZ "d" none 1080 1080 false =
      generate_post_image_model blendTop nearestResize bboxZero maskNone
        fontOkNone (fun _ => red16x9) (fun _ _ => "p2") (fun _ => blackImg)
        redWide cfgZZZ "d" none 1080 1080 false :=
  render_deterministic blendTop nearestResize bboxZero maskNone fontOkNone
    (fun _ => blackImg) (fun _ _ => "p1") (fun _ _ => "p2")
    (fun _ => blackImg) (fun _ => red16x9) redWide cfgZZZ "d" none 1080 1080
    false (fun h => nomatch h)

/-- Claim C10: `add_text_overlays` always composites a full-canvas-width,
250-pixel-tall semi-transparent black `(0,0,0,100)` rectangle at vertical
offset `canvas_height - 300`, even when the description and the occasion are
both empty strings — with empty texts the whole call is exactly that one band
composite. -/
theorem band_always_composited (blend : RGBA → RGBA → RGBA)
    (bbox : String → Font → Int × Int × Int × Int)
    (mask : String → Font → Int → Int → Bool) (fontOk : String → Bool)
    (base : Img) (cfg : BrandConfig)
    (hmask : ∀ f dx dy, mask "" f dx dy = false) :
    add_text_overlays_model blend bbox mask fontOk base cfg "" (some "") =
      alphaCompositeAt blend base (constImg base.width 250 ⟨0, 0, 0, 100⟩) 0
        ((base.height : Int) - 300) := by
  have hdraw : ∀ (img : Img) (f : Font) (tx ty : Int) (c : RGBA),
      drawTextAt mask img "" f tx ty c = img := by
    intro img f tx ty c
    have hp : (fun (x y : Nat) =>
        if mask "" f ((x : Int) - tx) ((y : Int) - ty) then c
        else img.pix x y) = img.pix := by
      funext x y
      rw [hmask]
      simp
    show Img.mk img.width img.height _ = img
    rw [hp]
  have hoff : ((base.height : Int) - 250 - 50) = (base.height : Int) - 300 := by
    ring
  unfold add_text_overlays_model
  simp only [Option.getD_some, if_pos]
  rw [hdraw, hoff]

/-- Witness for C10 at a concrete input: on a black 1080 × 1080 canvas with
empty texts, the overlay call is exactly the single band composite. -/
theorem band_always_composited_witness :
    add_text_overlays_model blendTop bboxZero maskNone fontOkNone blackImg
        cfgZZZ "" (some "") =
      alphaCompositeAt blendTop blackImg
        (constImg blackImg.width 250 ⟨0, 0, 0, 100⟩) 0
        ((blackImg.height : Int) - 300) :=
  band_always_composited blendTop bboxZero maskNone fontOkNone blackImg cfgZZZ
    (fun _ _ _ => rfl)

end PostGen
